import Mathlib

/-!
Verification of the cpu_daemon monitor against its specification.

Shallow embedding of the repository's C sources:

* `src/temp_monitor.c` — `get_cpu_temp`: runs `sensors` through a pipe and
  scans its output for a `Tctl:` line.  The pipe is modelled as
  `Option (List String)`: `none` when `popen` fails, `some lines` for the
  sequence of lines `fgets` delivers.
* `src/notifier.c` — `send_notification`: formats a `notify-send` command
  with `snprintf` into a 128-byte buffer and hands it to `system`.  The
  buffer is modelled as the list of UTF-8 bytes actually stored (at most
  127 bytes before the terminating NUL).
* `src/daemon.c` — `create_daemon`: double-fork daemonization, modelled as
  the sequence of process-lifecycle steps taken for each combination of
  fork/setsid outcomes.
* `main.c` (src/unnamed/part_001) — the monitoring loop; one cycle is
  modelled as the list of observable events it performs, in program order.

Temperatures are modelled as rationals (`ℚ`).  The C program stores a
32-bit float, but every behaviour the claims mention — the inclusive
`>= 65.0` threshold, `%.2f` / `%.1f` fixed-point rendering, the `-1.0`
and `0.0` sentinels — is exact on the rationals the parser produces.
`printf` rounding to nearest is modelled half-up; no claim input lies on
a tie.
-/

namespace CpuDaemon

/-- Decimal digit character for a value below ten, as produced by the C
library's fixed-point formatting.  Callers only pass `n % 10`. -/
def digitChar10 (k : Nat) : Char :=
  match k with
  | 0 => '0' | 1 => '1' | 2 => '2' | 3 => '3' | 4 => '4'
  | 5 => '5' | 6 => '6' | 7 => '7' | 8 => '8' | _ => '9'

/-- Decimal digits of `n`, most significant first.  The first argument is
fuel; `natDigits` supplies `n + 1`, which always suffices. -/
def natDigitsAux : Nat → Nat → List Char
  | 0, _ => []
  | fuel + 1, n =>
      if n < 10 then [digitChar10 n]
      else natDigitsAux fuel (n / 10) ++ [digitChar10 (n % 10)]

/-- Decimal digits of `n`, most significant first, as printed by `printf`. -/
def natDigits (n : Nat) : List Char := natDigitsAux (n + 1) n

/-- Exactly `p` decimal digits of `n` (mod `10^p`), zero-padded on the
left: the fractional field of a `%.pf` conversion. -/
def padDigits : Nat → Nat → List Char
  | 0, _ => []
  | p + 1, n => padDigits p (n / 10) ++ [digitChar10 (n % 10)]

/-- Ten to the `p`: the scaling factor of a `%.pf` conversion. -/
def tenPow (p : Nat) : Nat := 10 ^ p

/-- Round a rational to the nearest integer, halves away from zero upward:
`⌊q + 1/2⌋` computed on the numerator and denominator.  Models `printf`'s
round-to-nearest (no claim input lies on a tie). -/
def ratRound (q : ℚ) : ℤ := Int.fdiv (2 * q.num + (q.den : ℤ)) (2 * (q.den : ℤ))

/-- Fixed-point rendering of `q` with `prec` digits after the decimal
point: the text `printf "%.{prec}f"` produces for the corresponding C
float. -/
def fmtFixed (prec : Nat) (q : ℚ) : String :=
  (if ratRound (q * ((tenPow prec : ℕ) : ℚ)) < 0 then "-" else "") ++
  String.mk (natDigits ((ratRound (q * ((tenPow prec : ℕ) : ℚ))).natAbs / tenPow prec)) ++
  (if prec = 0 then ""
   else "." ++ String.mk (padDigits prec ((ratRound (q * ((tenPow prec : ℕ) : ℚ))).natAbs % tenPow prec)))

/-! ### temp_monitor.c — parsing the `sensors` output -/

/-- C `isspace` on the characters `scanf`'s whitespace directive skips. -/
def isSpaceC (c : Char) : Bool :=
  c == ' ' || c == '\t' || c == '\n' || c == '\x0b' || c == '\x0c' || c == '\r'

/-- Drop the leading whitespace a `scanf` whitespace directive (or the
`%f` conversion itself) consumes. -/
def dropSpaces (cs : List Char) : List Char := cs.dropWhile isSpaceC

/-- Value of a digit string read left to right. -/
def digitsToNat (ds : List Char) : Nat := ds.foldl (fun a c => 10 * a + (c.toNat - 48)) 0

/-- The number body a `%f` conversion accepts after any sign: digits with
an optional fractional part, at least one digit in total.  (The C
conversion also accepts exponent and hexadecimal forms, which the
`sensors` output never contains; they are outside this model.)  Returns
the value and the unconsumed rest of the line. -/
def parseNumR (cs : List Char) : Option (ℚ × List Char) :=
  match cs.dropWhile Char.isDigit with
  | '.' :: r2 =>
      if (cs.takeWhile Char.isDigit).length + (r2.takeWhile Char.isDigit).length = 0 then none
      else some ((digitsToNat (cs.takeWhile Char.isDigit) : ℚ) +
        (digitsToNat (r2.takeWhile Char.isDigit) : ℚ) / ((tenPow (r2.takeWhile Char.isDigit).length : ℕ) : ℚ),
        r2.dropWhile Char.isDigit)
  | r1 =>
      if (cs.takeWhile Char.isDigit).length = 0 then none
      else some ((digitsToNat (cs.takeWhile Char.isDigit) : ℚ), r1)

/-- A full `%f` conversion: skip whitespace, take an optional sign, then
the number body.  Returns the value and the unconsumed rest. -/
def parseSignedR (cs : List Char) : Option (ℚ × List Char) :=
  match dropSpaces cs with
  | '+' :: r => parseNumR r
  | '-' :: r => (parseNumR r).map (fun p => (-p.1, p.2))
  | r => parseNumR r

/-- `sscanf(line, "Tctl: +%f°C", &temp) == 1`, from `src/temp_monitor.c`:
the literal `Tctl:` must match at the start of the line, the format's
space matches any run of whitespace, the literal `+` must be present,
then `%f` converts.  `sscanf` reports one successful conversion as soon
as `%f` converts, so the trailing `°C` of the format is never checked. -/
def parseTctl (l : String) : Option ℚ :=
  match l.data with
  | 'T' :: 'c' :: 't' :: 'l' :: ':' :: rest =>
      match dropSpaces rest with
      | '+' :: r => (parseSignedR r).map Prod.fst
      | _ => none
  | _ => none

/-- `listStartsWith p l`: `p` is an initial run of `l`. -/
def listStartsWith : List Char → List Char → Bool
  | [], _ => true
  | _ :: _, [] => false
  | p :: ps, c :: cs => p == c && listStartsWith ps cs

/-- `containsSub pat l`: `pat` occurs somewhere in `l` — the C
`strstr(l, pat) != NULL`. -/
def containsSub (pat : List Char) : List Char → Bool
  | [] => listStartsWith pat []
  | c :: cs => listStartsWith pat (c :: cs) || containsSub pat cs

/-- `strstr(line, "Tctl:") != NULL` from `src/temp_monitor.c`. -/
def hasMarker (l : String) : Bool := containsSub "Tctl:".data l.data

/-- The scanning loop of `get_cpu_temp`: read lines in order; on a line
containing `Tctl:`, attempt the `sscanf`; on the first successful
conversion `break` with that value; if no line converts, return the
initial `temp = 0.0`. -/
def scanLines : List String → ℚ
  | [] => 0
  | l :: ls =>
      if hasMarker l then
        match parseTctl l with
        | some t => t
        | none => scanLines ls
      else scanLines ls

/-- `get_cpu_temp` from `src/temp_monitor.c`: `-1` when `popen("sensors")`
fails, otherwise the result of scanning the command's output lines. -/
def get_cpu_temp (sensorsOut : Option (List String)) : ℚ :=
  match sensorsOut with
  | none => -1
  | some ls => scanLines ls

/-! ### notifier.c — the alert command -/

/-- UTF-8 encoding of one character, as the bytes of a C string literal. -/
def utf8Char (c : Char) : List Nat :=
  if c.toNat < 128 then [c.toNat]
  else if c.toNat < 2048 then [192 + c.toNat / 64, 128 + c.toNat % 64]
  else if c.toNat < 65536 then
    [224 + c.toNat / 4096, 128 + c.toNat / 64 % 64, 128 + c.toNat % 64]
  else
    [240 + c.toNat / 262144, 128 + c.toNat / 4096 % 64, 128 + c.toNat / 64 % 64,
     128 + c.toNat % 64]

/-- UTF-8 bytes of a string. -/
def utf8Str (s : String) : List Nat := (s.data.map utf8Char).flatten

/-- The notification title from `src/notifier.c`. -/
def alertTitle : String := "⚠️ CPU ALERT"

/-- The notification body from `src/notifier.c`, temperature to one
decimal place. -/
def alertBody (temp : ℚ) : String := "Temp: " ++ fmtFixed 1 temp ++ "°C exceeds safe limit!"

/-- The full `notify-send` command text `snprintf` formats in
`src/notifier.c`, before any truncation. -/
def notifyCommandFull (temp : ℚ) : String :=
  "notify-send '" ++ alertTitle ++ "' '" ++ alertBody temp ++ "'"

/-- `send_notification` from `src/notifier.c`: the bytes `snprintf`
stores into `char command[128]` before the terminating NUL — the full
command, truncated to 127 bytes when longer — which `system` then runs. -/
def send_notification (temp : ℚ) : List Nat := (utf8Str (notifyCommandFull temp)).take 127

/-- The whole `command[128]` content `system` reads: the stored bytes and
the terminating NUL `snprintf` always writes. -/
def notifyBuffer (temp : ℚ) : List Nat := send_notification temp ++ [0]

/-! ### main.c — the monitoring loop -/

/-- `#define INTERVAL 5` from main.c. -/
def INTERVAL : Nat := 5

/-- `#define TEMP_THRESHOLD 65.0` from main.c. -/
def TEMP_THRESHOLD : ℚ := 65

/-- One log entry as `fprintf(log, "[%s] Temp: %.2f°C\n", ctime(&now), temp)`
formats it; `ts` is the string `ctime` returned (which carries its own
trailing newline). -/
def logEntry (ts : String) (temp : ℚ) : String :=
  "[" ++ ts ++ "] Temp: " ++ fmtFixed 2 temp ++ "°C\n"

/-- The observable actions of one pass of the `while (1)` loop in main.c,
in program order. -/
inductive Ev where
  | readTemp (t : ℚ)
  | logWrite (entry : String)
  | logFlush
  | notify (cmd : List Nat)
  | sleepSec (n : Nat)
deriving DecidableEq, Repr

/-- One cycle of the monitoring loop in main.c: read the temperature,
write and flush the log entry, alert when `temp >= TEMP_THRESHOLD`,
sleep `INTERVAL` seconds.  `o` is the sensing collaborator's output for
this cycle, `ts` the `ctime` timestamp. -/
def cycleEvents (o : Option (List String)) (ts : String) : List Ev :=
  [Ev.readTemp (get_cpu_temp o), Ev.logWrite (logEntry ts (get_cpu_temp o)), Ev.logFlush] ++
    (if TEMP_THRESHOLD ≤ get_cpu_temp o then
       [Ev.notify (send_notification (get_cpu_temp o))]
     else []) ++
    [Ev.sleepSec INTERVAL]

/-- The log entries a list of events writes, in order. -/
def logWrites (evs : List Ev) : List String :=
  evs.filterMap fun e => match e with | Ev.logWrite s => some s | _ => none

/-- The alert commands a list of events invokes, in order. -/
def notifyCmds (evs : List Ev) : List (List Nat) :=
  evs.filterMap fun e => match e with | Ev.notify c => some c | _ => none

/-- `alertAfterLogAux seen evs = true` when every alert in `evs` is
preceded by some log write (`seen` records one seen so far). -/
def alertAfterLogAux (seenLog : Bool) : List Ev → Bool
  | [] => true
  | Ev.logWrite _ :: r => alertAfterLogAux true r
  | Ev.notify _ :: r => seenLog && alertAfterLogAux seenLog r
  | _ :: r => alertAfterLogAux seenLog r

/-- Every alert in the event list happens after a log write. -/
def alertAfterLog (evs : List Ev) : Bool := alertAfterLogAux false evs

/-- Exit behaviour of `main` in main.c as a function of whether `fopen`
of the log file succeeded: `some code` when the process returns with
that status, `none` when it enters the `while (1)` loop, which has no
`break` or `return` and therefore never reaches the trailing
`return 0`. -/
def mainExitCode (logOpened : Bool) : Option Nat :=
  if logOpened then none else some 1

/-- The monitoring events `main` performs, for the first `ncycles`
cycles: none at all when the log file could not be opened (main returns
1 before the loop), otherwise the concatenated cycles. -/
def mainTrace (logOpened : Bool) (outs : Nat → Option (List String))
    (tss : Nat → String) (ncycles : Nat) : List Ev :=
  if logOpened then ((List.range ncycles).map fun i => cycleEvents (outs i) (tss i)).flatten
  else []

/-- The timestamp-independent part of a cycle's log entry: everything
after the `"] "` that closes the bracketed timestamp. -/
def logBody (o : Option (List String)) : String :=
  "Temp: " ++ fmtFixed 2 (get_cpu_temp o) ++ "°C\n"

/-! ### daemon.c — daemonization -/

/-- C `EXIT_SUCCESS`. -/
def EXIT_SUCCESS : Nat := 0

/-- C `EXIT_FAILURE`. -/
def EXIT_FAILURE : Nat := 1

/-- How a standard stream is reattached to `/dev/null` in
`create_daemon`: `open("/dev/null", O_RDONLY)` or `O_RDWR`. -/
inductive NullMode where
  | readOnly
  | readWrite
deriving DecidableEq, Repr

/-- The process-lifecycle steps `create_daemon` performs, in order. -/
inductive DStep where
  | forkCall
  | parentExit (code : Nat)
  | setsidCall
  | umaskSet (mask : Nat)
  | chdirTo (path : String)
  | closeFd (fd : Nat)
  | openNull (mode : NullMode)
deriving DecidableEq, Repr

/-- `create_daemon` from `src/daemon.c`, as a function of whether each
fallible step succeeds: the steps taken in order, and `some code` when
the surviving process terminates during daemonization (`exit(EXIT_FAILURE)`
on a failed fork or `setsid`), `none` when daemonization completes and
control returns to the caller. -/
def create_daemon (fork1Ok setsidOk fork2Ok : Bool) : List DStep × Option Nat :=
  if fork1Ok then
    if setsidOk then
      if fork2Ok then
        ([DStep.forkCall, DStep.parentExit EXIT_SUCCESS, DStep.setsidCall,
          DStep.forkCall, DStep.parentExit EXIT_SUCCESS, DStep.umaskSet 0,
          DStep.chdirTo "/", DStep.closeFd 0, DStep.closeFd 1, DStep.closeFd 2,
          DStep.openNull NullMode.readOnly, DStep.openNull NullMode.readWrite,
          DStep.openNull NullMode.readWrite], none)
      else
        ([DStep.forkCall, DStep.parentExit EXIT_SUCCESS, DStep.setsidCall,
          DStep.forkCall], some EXIT_FAILURE)
    else
      ([DStep.forkCall, DStep.parentExit EXIT_SUCCESS, DStep.setsidCall],
       some EXIT_FAILURE)
  else ([DStep.forkCall], some EXIT_FAILURE)

/-! ### The spec's reading of the scan pattern (for comparison only) -/

/-- Modelled from the spec: the scan pattern as §6 words it — the marker
`Tctl:` followed by a signed float and a degree-Celsius unit, pattern
`Tctl: +<float>°C`, with the `°C` required right after the float.  Used
only to compare the spec's predicted scan with the code's. -/
def parseTctlSpecAt : List Char → Option ℚ
  | 'T' :: 'c' :: 't' :: 'l' :: ':' :: rest =>
      match dropSpaces rest with
      | '+' :: r =>
          (match parseSignedR r with
           | some (v, '°' :: 'C' :: _) => some v
           | _ => none)
      | _ => none
  | _ => none

/-- Modelled from the spec: a line "containing" the §6 pattern — the
pattern may start at any position within the line. -/
def lineClaimValue : List Char → Option ℚ
  | [] => none
  | c :: cs =>
      match parseTctlSpecAt (c :: cs) with
      | some v => some v
      | none => lineClaimValue cs

/-- Modelled from the spec: the scan §6 describes — the first line
matching the `Tctl: +<float>°C` pattern determines the value, `0` when
no line matches. -/
def scanLinesSpec : List String → ℚ
  | [] => 0
  | l :: ls =>
      match lineClaimValue l.data with
      | some v => v
      | none => scanLinesSpec ls


/-! ### Helper lemmas -/

lemma strData_append (a b : String) : (a ++ b).data = a.data ++ b.data := rfl

lemma strData_mk (l : List Char) : (String.mk l).data = l := rfl

lemma digitChar10_isDigit (k : Nat) : (digitChar10 k).isDigit = true := by
  unfold digitChar10; split <;> rfl

lemma padDigits_length (p : Nat) : ∀ n, (padDigits p n).length = p := by
  induction p with
  | zero => intro n; rfl
  | succ p ih => intro n; simp [padDigits, ih]

lemma padDigits_isDigit (p : Nat) : ∀ n, ∀ c ∈ padDigits p n, c.isDigit = true := by
  induction p with
  | zero => intro n c h; simp [padDigits] at h
  | succ p ih =>
      intro n c h
      simp only [padDigits, List.mem_append, List.mem_singleton] at h
      rcases h with h | h
      · exact ih _ c h
      · subst h; exact digitChar10_isDigit _

lemma natDigitsAux_isDigit : ∀ fuel n, ∀ c ∈ natDigitsAux fuel n, c.isDigit = true := by
  intro fuel
  induction fuel with
  | zero => intro n c h; simp [natDigitsAux] at h
  | succ f ih =>
      intro n c h
      unfold natDigitsAux at h
      split at h
      · simp only [List.mem_singleton] at h; subst h; exact digitChar10_isDigit _
      · simp only [List.mem_append, List.mem_singleton] at h
        rcases h with h | h
        · exact ih _ c h
        · subst h; exact digitChar10_isDigit _

lemma isDigit_ne_dot {c : Char} (h : c.isDigit = true) : c ≠ '.' := by
  intro he; subst he; exact absurd h (by decide)

/-- The `%.2f` field always shows exactly two digits after the one decimal
point of the rendering. -/
lemma fmtFixed_two_decimals (q : ℚ) :
    ∃ pre frac, (fmtFixed 2 q).data = pre ++ '.' :: frac ∧ frac.length = 2 ∧
      (∀ c ∈ frac, c.isDigit = true) ∧ '.' ∉ pre := by
  refine ⟨(if ratRound (q * ((tenPow 2 : ℕ) : ℚ)) < 0 then "-" else "").data ++
      natDigits ((ratRound (q * ((tenPow 2 : ℕ) : ℚ))).natAbs / tenPow 2),
    padDigits 2 ((ratRound (q * ((tenPow 2 : ℕ) : ℚ))).natAbs % tenPow 2),
    ?_, padDigits_length 2 _, padDigits_isDigit 2 _, ?_⟩
  · show ((if ratRound (q * ((tenPow 2 : ℕ) : ℚ)) < 0 then "-" else "") ++
        String.mk (natDigits ((ratRound (q * ((tenPow 2 : ℕ) : ℚ))).natAbs / tenPow 2)) ++
        (if (2 : ℕ) = 0 then ""
         else "." ++ String.mk (padDigits 2 ((ratRound (q * ((tenPow 2 : ℕ) : ℚ))).natAbs % tenPow 2)))).data = _
    simp [strData_append, strData_mk, List.append_assoc]
  · intro hmem
    rcases List.mem_append.mp hmem with h | h
    · split at h
      · simp at h
      · simp at h
    · exact isDigit_ne_dot (natDigitsAux_isDigit _ _ _ h) rfl

/-! ### Scan lemmas -/

lemma listStartsWith_append (p r : List Char) : listStartsWith p (p ++ r) = true := by
  induction p with
  | nil => rfl
  | cons c cs ih => simp [listStartsWith, ih]

lemma containsSub_here (pat r : List Char) : containsSub pat (pat ++ r) = true := by
  cases pat with
  | nil => cases r <;> simp [containsSub, listStartsWith]
  | cons p ps =>
      show containsSub (p :: ps) (p :: (ps ++ r)) = true
      have h := listStartsWith_append (p :: ps) r
      simp only [List.cons_append] at h
      simp [containsSub, h]

lemma containsSub_mid (pat xs r : List Char) : containsSub pat (xs ++ (pat ++ r)) = true := by
  induction xs with
  | nil => simpa using containsSub_here pat r
  | cons c cs ih => simp [containsSub, ih]

lemma parseTctl_shape {l : String} {v : ℚ} (h : parseTctl l = some v) :
    ∃ r, l.data = 'T' :: 'c' :: 't' :: 'l' :: ':' :: r := by
  unfold parseTctl at h
  split at h
  · next r heq => exact ⟨r, heq⟩
  · exact absurd h (by simp)

lemma parseTctl_hasMarker {l : String} {v : ℚ} (h : parseTctl l = some v) :
    hasMarker l = true := by
  obtain ⟨r, hr⟩ := parseTctl_shape h
  unfold hasMarker
  rw [hr]
  exact containsSub_here "Tctl:".data r

lemma scanLines_cons_none {l : String} (ls : List String) (h : parseTctl l = none) :
    scanLines (l :: ls) = scanLines ls := by
  cases hm : hasMarker l <;> simp [scanLines, hm, h]

lemma scanLines_cons_some {l : String} (ls : List String) {v : ℚ} (h : parseTctl l = some v) :
    scanLines (l :: ls) = v := by
  simp [scanLines, parseTctl_hasMarker h, h]

lemma scanLines_of_none (ls : List String) (h : ∀ l ∈ ls, parseTctl l = none) :
    scanLines ls = 0 := by
  induction ls with
  | nil => rfl
  | cons l ls ih =>
      rw [scanLines_cons_none ls (h l (by simp))]
      exact ih fun x hx => h x (by simp [hx])

lemma scanLines_first (pre : List String) (l : String) (post : List String) (v : ℚ)
    (h1 : ∀ x ∈ pre, parseTctl x = none) (h2 : parseTctl l = some v) :
    scanLines (pre ++ l :: post) = v := by
  induction pre with
  | nil => simpa using scanLines_cons_some post h2
  | cons x xs ih =>
      rw [List.cons_append, scanLines_cons_none _ (h1 x (by simp))]
      exact ih fun y hy => h1 y (by simp [hy])

/-! ### Cycle lemmas -/

lemma notifyCmds_cycle (o : Option (List String)) (ts : String) :
    notifyCmds (cycleEvents o ts) =
      if TEMP_THRESHOLD ≤ get_cpu_temp o then [send_notification (get_cpu_temp o)] else [] := by
  unfold cycleEvents notifyCmds
  split <;> rfl

lemma logWrites_cycle (o : Option (List String)) (ts : String) :
    logWrites (cycleEvents o ts) = [logEntry ts (get_cpu_temp o)] := by
  unfold cycleEvents logWrites
  split <;> rfl

lemma logEntry_data (ts : String) (t : ℚ) :
    (logEntry ts t).data =
      '[' :: (ts.data ++ ']' :: ' ' :: ("Temp: " ++ fmtFixed 2 t ++ "°C\n").data) := by
  show ("[" ++ ts ++ "] Temp: " ++ fmtFixed 2 t ++ "°C\n").data = _
  simp [strData_append, List.append_assoc]


/-! ### Claim theorems -/

/-- C1: in each cycle the alert collaborator is invoked exactly once iff the
reading is at least 65.0 (inclusive threshold), and the invoked command is
the `notify-send` call with fixed title `⚠️ CPU ALERT` and body
`Temp: <t>°C exceeds safe limit!`, `t` to one decimal place.  The
hypothesis — the rendered command fits the 128-byte buffer — holds for
every temperature a 32-bit float can represent. -/
theorem alert_threshold_payload (o : Option (List String)) (ts : String)
    (hfits : (utf8Str (notifyCommandFull (get_cpu_temp o))).length ≤ 127) :
    (notifyCmds (cycleEvents o ts) =
      if (65 : ℚ) ≤ get_cpu_temp o then [utf8Str (notifyCommandFull (get_cpu_temp o))] else []) ∧
    (notifyCmds (cycleEvents o ts)).length = (if (65 : ℚ) ≤ get_cpu_temp o then 1 else 0) ∧
    notifyCommandFull (get_cpu_temp o) =
      "notify-send '" ++ "⚠️ CPU ALERT" ++ "' '" ++
        ("Temp: " ++ fmtFixed 1 (get_cpu_temp o) ++ "°C exceeds safe limit!") ++ "'" := by
  have hsend : send_notification (get_cpu_temp o) = utf8Str (notifyCommandFull (get_cpu_temp o)) :=
    List.take_of_length_le hfits
  have h1 := notifyCmds_cycle o ts
  rw [hsend, show TEMP_THRESHOLD = (65 : ℚ) from rfl] at h1
  refine ⟨h1, ?_, rfl⟩
  rw [h1]
  split <;> rfl

/-- C1 witness: a 70.3 °C reading fires exactly one alert carrying the full
command. -/
theorem alert_threshold_payload_witness :
    notifyCmds (cycleEvents (some ["Tctl: +70.3°C"]) "Fri Oct 10 12:00:00 2025\n") =
      [utf8Str (notifyCommandFull (703 / 10))] := by
  have h := alert_threshold_payload (some ["Tctl: +70.3°C"]) "Fri Oct 10 12:00:00 2025\n"
    (by rw [show (utf8Str (notifyCommandFull (get_cpu_temp (some ["Tctl: +70.3°C"])))).length = 66
          from by with_unfolding_all rfl]; norm_num)
  rw [h.1, show get_cpu_temp (some ["Tctl: +70.3°C"]) = 703 / 10 from by with_unfolding_all rfl,
    if_pos (by norm_num)]

/-- C2: `get_cpu_temp` yields the sentinel `-1` when the pipe cannot be
opened and `0` when no line parses; both flow into the log entry and the
threshold comparison like genuine readings (logged as `-1.00` / `0.00`,
no alert, no other event), with no distinct error surfaced. -/
theorem sensor_failure_sentinels :
    get_cpu_temp none = -1 ∧
    (∀ ls : List String, (∀ l ∈ ls, parseTctl l = none) → get_cpu_temp (some ls) = 0) ∧
    (∀ ts : String, cycleEvents none ts =
      [Ev.readTemp (-1), Ev.logWrite (logEntry ts (-1)), Ev.logFlush, Ev.sleepSec INTERVAL]) ∧
    fmtFixed 2 (-1) = "-1.00" ∧ fmtFixed 2 0 = "0.00" ∧
    (∀ (ts : String) (ls : List String), (∀ l ∈ ls, parseTctl l = none) →
      cycleEvents (some ls) ts =
        [Ev.readTemp 0, Ev.logWrite (logEntry ts 0), Ev.logFlush, Ev.sleepSec INTERVAL]) := by
  refine ⟨rfl, fun ls h => scanLines_of_none ls h, fun ts => ?_,
    by with_unfolding_all rfl, by with_unfolding_all rfl, fun ts ls h => ?_⟩
  · unfold cycleEvents
    rw [show get_cpu_temp none = (-1 : ℚ) from rfl,
      if_neg (by rw [show TEMP_THRESHOLD = (65 : ℚ) from rfl]; norm_num)]
    rfl
  · have h0 : get_cpu_temp (some ls) = 0 := scanLines_of_none ls h
    unfold cycleEvents
    rw [h0, if_neg (by rw [show TEMP_THRESHOLD = (65 : ℚ) from rfl]; norm_num)]
    rfl

/-- C2 witness: output with no parseable `Tctl:` line yields reading 0,
one `0.00` log entry, no alert. -/
theorem sensor_failure_sentinels_witness :
    cycleEvents (some ["cpu_fan: 0 RPM"]) "Mon Jan 1 00:00:00 2024\n" =
      [Ev.readTemp 0, Ev.logWrite (logEntry "Mon Jan 1 00:00:00 2024\n" 0), Ev.logFlush,
       Ev.sleepSec INTERVAL] := by
  exact sensor_failure_sentinels.2.2.2.2.2 "Mon Jan 1 00:00:00 2024\n" ["cpu_fan: 0 RPM"]
    (by intro l hl; rw [List.mem_singleton] at hl; subst hl; rfl)

/-- C3: each cycle writes exactly one log entry
`[<timestamp>] Temp: <value>°C\n`, the value always with exactly two
digits after the decimal point, and the ctime-style timestamp's own
trailing newline sits inside the entry, right after the timestamp text
and before the closing bracket. -/
theorem log_entry_format (o : Option (List String)) (ts tbody : String)
    (h : ts = tbody ++ "\n") :
    logWrites (cycleEvents o ts) = [logEntry ts (get_cpu_temp o)] ∧
    logEntry ts (get_cpu_temp o) =
      "[" ++ ts ++ "] Temp: " ++ fmtFixed 2 (get_cpu_temp o) ++ "°C\n" ∧
    (∃ pre frac, (fmtFixed 2 (get_cpu_temp o)).data = pre ++ '.' :: frac ∧
      frac.length = 2 ∧ (∀ c ∈ frac, c.isDigit = true) ∧ '.' ∉ pre) ∧
    (∃ tail, (logEntry ts (get_cpu_temp o)).data =
      '[' :: (tbody.data ++ '\n' :: ']' :: tail)) := by
  subst h
  refine ⟨logWrites_cycle o _, rfl, fmtFixed_two_decimals _, ?_⟩
  refine ⟨' ' :: ("Temp: " ++ fmtFixed 2 (get_cpu_temp o) ++ "°C\n").data, ?_⟩
  rw [logEntry_data]
  simp [strData_append, List.append_assoc]

/-- C3 witness: the sentinel `-1` reading of a failed sensor launch is
logged as a single well-formed entry. -/
theorem log_entry_format_witness :
    logWrites (cycleEvents none "Fri Oct 10 12:00:00 2025\n") =
      [logEntry "Fri Oct 10 12:00:00 2025\n" (get_cpu_temp none)] ∧
    (∃ tail, (logEntry "Fri Oct 10 12:00:00 2025\n" (get_cpu_temp none)).data =
      '[' :: (("Fri Oct 10 12:00:00 2025" : String).data ++ '\n' :: ']' :: tail)) := by
  have h := log_entry_format none "Fri Oct 10 12:00:00 2025\n" "Fri Oct 10 12:00:00 2025" rfl
  exact ⟨h.1, h.2.2.2⟩

/-- C4: each cycle performs, in this order: read the temperature, write
and flush the log entry, the conditional alert, then sleep the fixed 5
second interval; every alert is preceded by that cycle's log write. -/
theorem cycle_event_order (o : Option (List String)) (ts : String) :
    cycleEvents o ts =
      [Ev.readTemp (get_cpu_temp o), Ev.logWrite (logEntry ts (get_cpu_temp o)), Ev.logFlush] ++
        (if TEMP_THRESHOLD ≤ get_cpu_temp o then
           [Ev.notify (send_notification (get_cpu_temp o))] else []) ++
        [Ev.sleepSec INTERVAL] ∧
    alertAfterLog (cycleEvents o ts) = true ∧
    (cycleEvents o ts).getLast? = some (Ev.sleepSec INTERVAL) ∧
    (cycleEvents o ts).head? = some (Ev.readTemp (get_cpu_temp o)) ∧
    INTERVAL = 5 ∧ TEMP_THRESHOLD = 65 := by
  refine ⟨rfl, ?_, ?_, ?_, rfl, rfl⟩
  · unfold cycleEvents alertAfterLog
    split <;> rfl
  · unfold cycleEvents
    split <;> rfl
  · unfold cycleEvents
    split <;> rfl

/-- C5 counterexample: the code's scan does not require the `°C` unit of
the claimed pattern — a `Tctl:` line without it still supplies the
reading and stops the scan — and a line merely containing the pattern
away from the line start supplies nothing. -/
theorem scan_pattern_counterexample :
    get_cpu_temp (some ["Tctl: +70.3", "Tctl: +10.0°C"]) = 703 / 10 ∧
    scanLinesSpec ["Tctl: +70.3", "Tctl: +10.0°C"] = 10 ∧
    (703 : ℚ) / 10 ≠ 10 ∧
    get_cpu_temp (some [" Tctl: +99.9°C"]) = 0 ∧
    scanLinesSpec [" Tctl: +99.9°C"] = 999 / 10 ∧
    (0 : ℚ) ≠ 999 / 10 :=
  ⟨by with_unfolding_all rfl, by with_unfolding_all rfl, by norm_num,
   by with_unfolding_all rfl, by with_unfolding_all rfl, by norm_num⟩

/-- C5 (amended): a line supplies the reading iff it begins with `Tctl:`,
optional whitespace, `+` and a parseable float (the format's trailing
`°C` is never checked); the first such line determines the returned
value and no further lines influence the result. -/
theorem scan_first_match (pre : List String) (l : String) (post post2 : List String) (v : ℚ)
    (h1 : ∀ x ∈ pre, parseTctl x = none) (h2 : parseTctl l = some v) :
    get_cpu_temp (some (pre ++ l :: post)) = v ∧
    get_cpu_temp (some (pre ++ l :: post)) = get_cpu_temp (some (pre ++ l :: post2)) := by
  have ha : scanLines (pre ++ l :: post) = v := scanLines_first pre l post v h1 h2
  have hb : scanLines (pre ++ l :: post2) = v := scanLines_first pre l post2 v h1 h2
  exact ⟨ha, ha.trans hb.symm⟩

/-- C5 witness: the first parseable line (no `°C` unit) wins over a later
unit-bearing line, and later lines do not matter. -/
theorem scan_first_match_witness :
    get_cpu_temp (some (["amdgpu-pci-0300", "temp1: 45.0 C"] ++ "Tctl: +70.3" :: ["Tctl: +10.0°C"])) =
      703 / 10 :=
  (scan_first_match ["amdgpu-pci-0300", "temp1: 45.0 C"] "Tctl: +70.3" ["Tctl: +10.0°C"] [] (703 / 10)
    (by intro x hx
        simp only [List.mem_cons, List.not_mem_nil, or_false] at hx
        rcases hx with h | h <;> subst h <;> rfl)
    (by with_unfolding_all rfl)).1

/-- C6: when the log file cannot be opened, main exits with status 1
before any cycle (no events at all); status 0 is returned on no path,
since the monitoring loop never terminates. -/
theorem startup_exit_codes :
    mainExitCode false = some 1 ∧
    (∀ (outs : Nat → Option (List String)) (tss : Nat → String) (n : Nat),
      mainTrace false outs tss n = []) ∧
    (∀ b : Bool, decide (mainExitCode b = some 0) = false) ∧
    mainExitCode true = none := by
  refine ⟨rfl, fun _ _ _ => rfl, ?_, rfl⟩
  intro b; cases b <;> rfl

/-- C7: create_daemon performs exactly the double-fork sequence — fork,
parent exits 0, setsid, fork, intermediate parent exits 0, umask 0,
chdir to /, close stdin/stdout/stderr, reopen them on /dev/null — and
any fork or setsid failure terminates the process at once with failure
status 1, with no retry. -/
theorem daemonization_steps :
    create_daemon true true true =
      ([DStep.forkCall, DStep.parentExit EXIT_SUCCESS, DStep.setsidCall, DStep.forkCall,
        DStep.parentExit EXIT_SUCCESS, DStep.umaskSet 0, DStep.chdirTo "/",
        DStep.closeFd 0, DStep.closeFd 1, DStep.closeFd 2,
        DStep.openNull NullMode.readOnly, DStep.openNull NullMode.readWrite,
        DStep.openNull NullMode.readWrite], none) ∧
    (∀ s f2 : Bool, create_daemon false s f2 = ([DStep.forkCall], some EXIT_FAILURE)) ∧
    (∀ f2 : Bool, create_daemon true false f2 =
      ([DStep.forkCall, DStep.parentExit EXIT_SUCCESS, DStep.setsidCall], some EXIT_FAILURE)) ∧
    create_daemon true true false =
      ([DStep.forkCall, DStep.parentExit EXIT_SUCCESS, DStep.setsidCall, DStep.forkCall],
        some EXIT_FAILURE) ∧
    EXIT_FAILURE = 1 ∧ EXIT_SUCCESS = 0 :=
  ⟨rfl, fun _ _ => rfl, fun _ => rfl, rfl, rfl, rfl⟩

/-- C8: identical sensing-collaborator output gives identical parsed
readings and byte-identical log bodies; a full entry is the bracketed
timestamp followed by `"] "` and the body, so two such entries differ
only in the timestamp portion. -/
theorem reading_determines_log_body (o1 o2 : Option (List String)) (ts1 ts2 : String)
    (h : o1 = o2) :
    get_cpu_temp o1 = get_cpu_temp o2 ∧
    logBody o1 = logBody o2 ∧
    (logEntry ts1 (get_cpu_temp o1)).data = '[' :: (ts1.data ++ ']' :: ' ' :: (logBody o1).data) ∧
    (logEntry ts2 (get_cpu_temp o2)).data = '[' :: (ts2.data ++ ']' :: ' ' :: (logBody o2).data) := by
  subst h
  exact ⟨rfl, rfl, logEntry_data ts1 _, logEntry_data ts2 _⟩

/-- C8 witness: the same output on two cycles with different timestamps. -/
theorem reading_determines_log_body_witness :
    logBody (some ["Tctl: +42.5°C (high = +70.0°C)"]) =
      logBody (some ["Tctl: +42.5°C (high = +70.0°C)"]) ∧
    (logEntry "Sat Oct 11 09:00:00 2025\n" (get_cpu_temp (some ["Tctl: +42.5°C (high = +70.0°C)"]))).data =
      '[' :: (("Sat Oct 11 09:00:00 2025\n" : String).data ++
        ']' :: ' ' :: (logBody (some ["Tctl: +42.5°C (high = +70.0°C)"])).data) := by
  have h := reading_determines_log_body (some ["Tctl: +42.5°C (high = +70.0°C)"])
    (some ["Tctl: +42.5°C (high = +70.0°C)"]) "Sat Oct 11 09:00:00 2025\n"
    "Sat Oct 11 10:00:00 2025\n" rfl
  exact ⟨h.2.1, h.2.2.1⟩

/-- C9: the `strstr` marker test sees `Tctl:` anywhere in the line, but
only a line whose text parses from the line start supplies the reading;
a marker line that fails the parse neither stops the scan nor changes
the result, and a later parseable line still wins. -/
theorem marker_scan_independence (l l2 : String) (ls : List String) :
    (hasMarker l = true → parseTctl l = none → scanLines (l :: ls) = scanLines ls) ∧
    (∀ a b : String, hasMarker (a ++ "Tctl:" ++ b) = true) ∧
    (∀ v : ℚ, parseTctl l = some v → ∃ r, l.data = 'T' :: 'c' :: 't' :: 'l' :: ':' :: r) ∧
    (hasMarker l = true → parseTctl l = none → ∀ v : ℚ, parseTctl l2 = some v →
      scanLines (l :: l2 :: ls) = v) := by
  refine ⟨fun _ h => scanLines_cons_none _ h, ?_, fun _ h => parseTctl_shape h, ?_⟩
  · intro a b
    unfold hasMarker
    rw [show (a ++ "Tctl:" ++ b).data = a.data ++ (("Tctl:" : String).data ++ b.data) from by
      simp [strData_append, List.append_assoc]]
    exact containsSub_mid _ _ _
  · intro _ hn v h2
    rw [scanLines_cons_none _ hn]
    exact scanLines_cons_some _ h2

/-- C9 witness: a mid-line marker parses to nothing and the scan moves on
to the next line's reading. -/
theorem marker_scan_independence_witness :
    scanLines ["cpu Tctl: bad", "Tctl: +70.3°C"] = 703 / 10 :=
  (marker_scan_independence "cpu Tctl: bad" "Tctl: +70.3°C" []).2.2.2 rfl rfl (703 / 10)
    (by with_unfolding_all rfl)

/-- C10: the shell command is built by bounded formatting into the
128-byte buffer: at most 127 bytes plus the terminating NUL, equal to
the full command whenever that fits, and silently truncated (so no
longer the full quoted command) whenever the rendering is longer. -/
theorem notify_command_bounded (t : ℚ) :
    (send_notification t).length ≤ 127 ∧
    notifyBuffer t = send_notification t ++ [0] ∧
    (notifyBuffer t).length ≤ 128 ∧
    ((utf8Str (notifyCommandFull t)).length ≤ 127 →
      send_notification t = utf8Str (notifyCommandFull t)) ∧
    (127 < (utf8Str (notifyCommandFull t)).length →
      (send_notification t).length = 127 ∧
      send_notification t ≠ utf8Str (notifyCommandFull t)) := by
  have hlen : (send_notification t).length = min 127 (utf8Str (notifyCommandFull t)).length :=
    List.length_take _ _
  refine ⟨hlen ▸ min_le_left _ _, rfl, ?_, fun h => List.take_of_length_le h, fun h => ?_⟩
  · have h1 : (send_notification t).length ≤ 127 := hlen ▸ min_le_left _ _
    simp only [notifyBuffer, List.length_append, List.length_singleton]
    omega
  · have h127 : (send_notification t).length = 127 := by
      rw [hlen]; exact min_eq_left (le_of_lt h)
    refine ⟨h127, fun he => ?_⟩
    rw [he] at h127
    omega

set_option maxRecDepth 100000 in
/-- C10 witness: a reading of 10^70 °C renders to a 135-byte command,
stored truncated at 127 bytes. -/
theorem notify_command_bounded_witness :
    (send_notification ((10 : ℚ) ^ 70)).length = 127 ∧
    send_notification ((10 : ℚ) ^ 70) ≠ utf8Str (notifyCommandFull ((10 : ℚ) ^ 70)) :=
  (notify_command_bounded ((10 : ℚ) ^ 70)).2.2.2.2
    (by rw [show (utf8Str (notifyCommandFull ((10 : ℚ) ^ 70))).length = 135
          from by with_unfolding_all rfl]; norm_num)

end CpuDaemon
